import Mathlib

/-!
Shallow embedding of `src/app/like_routes.py` (free-api-like).

The module's collaborators (`_token_cache.get_tokens`, `get_headers`,
`encode_uid`, `decode_info`, `create_protobuf`, `encrypt_aes`,
`bytes.fromhex`, and the two HTTP transports `aiohttp` / `requests`) are
modelled as oracle fields of an `Env`.  A collaborator that can raise a
Python exception is `Except Fault`-valued; the exception propagates
exactly where the Python code lets it propagate.  The credential pool is
indexed by a call counter (`Nat`) because the pool's contents can change
between the successive `get_tokens` calls one request makes.  Every
function additionally returns the list of network calls it issued, so
"no network call is made" is a provable statement.
-/

deriving instance DecidableEq for Except

namespace FreeLike

/-- A Python exception message. -/
abbrev Fault := String

/-- Decoded profile record: `decode_info(...)` yields an object with
`AccountInfo.PlayerNickname` and `AccountInfo.Likes`. -/
structure PlayerInfo where
  playerNickname : String
  likes : Int
  deriving DecidableEq

/-- Result of one HTTP exchange: either the response (transport status code
and raw body), or a raised exception (timeout, connection error, ...). -/
inductive HttpResult where
  | ok (status : Nat) (body : List Nat) : HttpResult
  | exn : HttpResult
  deriving DecidableEq

/-- Record of one network call that was actually issued. -/
structure NetCall where
  isAsync : Bool
  url : String
  data : List Nat
  token : String
  deriving DecidableEq

/-- Aggregate of one fan-out round, `send_likes`'s return value
`{"sent": ..., "added": ...}`. -/
structure SendResult where
  sent : Nat
  added : Nat
  deriving DecidableEq

/-- The module's collaborators and configuration.
`servers` is `_SERVERS` in registration order; `get_tokens` takes the index
of the call (how many pool queries this request made before) so the pool can
change over time, as the real shared pool does. -/
structure Env where
  servers : List (String × String)
  get_tokens : Nat → String → Except Fault (List String)
  get_headers : String → Except Fault Unit
  encode_uid : String → Except Fault String
  fromhex : String → Except Fault (List Nat)
  create_protobuf : String → String → Except Fault String
  encrypt_aes : String → Except Fault String
  decode_info : List Nat → Except Fault (Option PlayerInfo)
  anet : String → List Nat → String → HttpResult
  snet : String → List Nat → String → HttpResult

/-- `async_post_request`: builds headers and posts; ANY exception inside is
caught and turned into `None`; otherwise the raw body is returned whatever
the transport status was.  Second component: the network calls issued
(none when `get_headers` already raised). -/
def async_post_request (env : Env) (url : String) (data : List Nat) (token : String) :
    Option (List Nat) × List NetCall :=
  match env.get_headers token with
  | .error _ => (none, [])
  | .ok _ =>
    match env.anet url data token with
    | .ok _ body => (some body, [⟨true, url, data, token⟩])
    | .exn => (none, [⟨true, url, data, token⟩])

/-- `make_request`: synchronous lookup used by verification.
`bytes.fromhex` and `get_headers` run before the `try`, so their exceptions
propagate; everything inside the `try` (the post, the status check, the
decode) collapses to `None` on failure. -/
def make_request (env : Env) (uid_enc : String) (url : String) (token : String) :
    Except Fault (Option PlayerInfo × List NetCall) := do
  let data ← env.fromhex uid_enc
  let _ ← env.get_headers token
  match env.snet url data token with
  | .ok status body =>
    if status = 200 then
      match env.decode_info body with
      | .ok info => pure (info, [⟨false, url, data, token⟩])
      | .error _ => pure (none, [⟨false, url, data, token⟩])
    else
      pure (none, [⟨false, url, data, token⟩])
  | .exn => pure (none, [⟨false, url, data, token⟩])

/-- One iteration of the `detect_player_region` loop body for region `p`:
`none` means "continue with the next region", `some info` means this region
matched.  `k` is the pool-query counter.  A `decode_info` exception
propagates (there is no `try` in `detect_player_region`). -/
def regionProbe (env : Env) (uid : String) (p : String × String) (k : Nat) :
    Except Fault (Option PlayerInfo × List NetCall × Nat) := do
  let tokens ← env.get_tokens k p.1
  match tokens with
  | [] => pure (none, [], k + 1)
  | t0 :: _ => do
    let hx ← env.encode_uid uid
    let data ← env.fromhex hx
    let infoUrl := p.2 ++ "/GetPlayerPersonalShow"
    let (resp, tr) := async_post_request env infoUrl data t0
    match resp with
    | none => pure (none, tr, k + 1)
    | some body =>
      if body.isEmpty then
        pure (none, tr, k + 1)
      else
        match env.decode_info body with
        | .error e => throw e
        | .ok none => pure (none, tr, k + 1)
        | .ok (some info) =>
          if info.playerNickname = "" then
            pure (none, tr, k + 1)
          else
            pure (some info, tr, k + 1)

/-- The `for region_key, server_url in _SERVERS.items()` loop of
`detect_player_region`: first match wins, otherwise `(None, None)`. -/
def detectLoop (env : Env) (uid : String) :
    List (String × String) → Nat →
      Except Fault (Option (String × PlayerInfo) × List NetCall × Nat)
  | [], k => pure (none, [], k)
  | p :: rest, k => do
    let (m, tr, k1) ← regionProbe env uid p k
    match m with
    | some info => pure (some (p.1, info), tr, k1)
    | none => do
      let (res, tr2, k2) ← detectLoop env uid rest k1
      pure (res, tr ++ tr2, k2)

/-- `detect_player_region(uid)`. -/
def detect_player_region (env : Env) (uid : String) :
    Except Fault (Option (String × PlayerInfo) × List NetCall × Nat) :=
  detectLoop env uid env.servers 0

/-- `_SERVERS[region]`: Python dict indexing, `KeyError` when absent. -/
def serverFor (env : Env) (region : String) : Except Fault String :=
  match env.servers.lookup region with
  | some u => pure u
  | none => throw "KeyError"

/-- `send_likes(uid, region)`: fetch the pool's current list; empty list
short-circuits to `{"sent": 0, "added": 0}` with no network call; otherwise
one concurrent post per credential, `sent = len(results)`,
`added = #(results that are not None)`. -/
def send_likes (env : Env) (uid : String) (region : String) (k : Nat) :
    Except Fault (SendResult × List NetCall × Nat) := do
  let tokens ← env.get_tokens k region
  match tokens with
  | [] => pure (⟨0, 0⟩, [], k + 1)
  | _ :: _ => do
    let serverUrl ← serverFor env region
    let likeUrl := serverUrl ++ "/LikeProfile"
    let pb ← env.create_protobuf uid region
    let enc ← env.encrypt_aes pb
    let data ← env.fromhex enc
    let results := tokens.map (fun t => (async_post_request env likeUrl data t).1)
    let calls := (tokens.map (fun t => (async_post_request env likeUrl data t).2)).flatten
    pure (⟨results.length, (results.filter (fun r => r.isSome)).length⟩, calls, k + 1)

/-- Lines 113-121 of the route: the verification step.  `sent = 0` skips
verification entirely; otherwise the pool is consulted again, and a failed
or undecodable verification read falls back to `before_likes`. -/
def verify_after (env : Env) (uid : String) (region : String) (infoUrl : String)
    (beforeLikes : Int) (sent : Nat) (k : Nat) :
    Except Fault (Int × List NetCall × Nat) := do
  if sent = 0 then
    pure (beforeLikes, [], k)
  else do
    let currentTokens ← env.get_tokens k region
    match currentTokens with
    | [] => pure (beforeLikes, [], k + 1)
    | t0 :: _ => do
      let uidEnc ← env.encode_uid uid
      let (newInfo, tr) ← make_request env uidEnc infoUrl t0
      match newInfo with
      | some info => pure (info.likes, tr, k + 1)
      | none => pure (beforeLikes, tr, k + 1)

/-- Python's `uid.isdigit()` on the ASCII strings the service deals with:
non-empty and all decimal digits. -/
def pyIsdigit (s : String) : Bool :=
  !s.data.isEmpty && s.data.all Char.isDigit

/-- The JSON bodies the `/like` route can answer with. -/
inductive Response where
  | invalidUid : Response
  | notFound : Response
  | success (player : String) (uid : String) (likesAdded : Int) (likesBefore : Int)
      (likesAfter : Int) (serverUsed : String) (status : Nat) : Response
  | internalError (msg : Fault) : Response
  deriving DecidableEq

/-- The HTTP status the route attaches to each body. -/
def httpStatus : Response → Nat
  | .invalidUid => 400
  | .notFound => 404
  | .success _ _ _ _ _ _ _ => 200
  | .internalError _ => 500

/-- The body of `like_player`'s `try` block: validation, detection,
dispatch, verification, response shaping.  An uncaught collaborator fault
is the `.error` case. -/
def like_player_body (env : Env) (uidArg : Option String) :
    Except Fault (Response × List NetCall) := do
  match uidArg with
  | none => pure (.invalidUid, [])
  | some uid =>
    if !pyIsdigit uid then
      pure (.invalidUid, [])
    else do
      let (found, tr1, k1) ← detect_player_region env uid
      match found with
      | none => pure (.notFound, tr1)
      | some (region, info) => do
        let beforeLikes := info.likes
        let playerName := info.playerNickname
        let serverUrl ← serverFor env region
        let infoUrl := serverUrl ++ "/GetPlayerPersonalShow"
        let (likeResult, tr2, k2) ← send_likes env uid region k1
        let (afterLikes, tr3, _) ←
          verify_after env uid region infoUrl beforeLikes likeResult.sent k2
        pure (.success playerName uid (afterLikes - beforeLikes) beforeLikes afterLikes
                region (if afterLikes > beforeLikes then 1 else 2),
              tr1 ++ tr2 ++ tr3)

/-- `like_player`: the whole route, with its outermost
`try ... except Exception` turning any propagated fault into the
generic 500 response. -/
def like_player (env : Env) (uidArg : Option String) : Response × List NetCall :=
  match like_player_body env uidArg with
  | .ok r => r
  | .error e => (.internalError e, [])

/-- Demo environment: two regions, the first without credentials, the
second with two; every lookup decodes to a profile whose like counter is
`10 + length of the response body`, the async transport answers with a
2-byte body (before = 12) and the sync transport with a 3-byte body
(after = 13). -/
def envOk : Env where
  servers := [("b", "u1"), ("ind", "u2")]
  get_tokens := fun _ r => if r = "ind" then .ok ["tokA", "tokB"] else .ok []
  get_headers := fun _ => .ok ()
  encode_uid := fun u => .ok u
  fromhex := fun _ => .ok [7]
  create_protobuf := fun _ _ => .ok "pb"
  encrypt_aes := fun s => .ok s
  decode_info := fun body => .ok (some ⟨"P", (body.length : Int) + 10⟩)
  anet := fun _ _ _ => .ok 200 [1, 2]
  snet := fun _ _ _ => .ok 200 [1, 2, 3]

/-- Like `envOk`, but the verification read returns a 1-byte body, so the
like counter appears to have dropped from 12 to 11. -/
def envNeg : Env :=
  { envOk with snet := fun _ _ _ => .ok 200 [1] }

/-- Like `envOk`, but the verification transport raises on every call. -/
def envVfail : Env :=
  { envOk with snet := fun _ _ _ => .exn }

/-- Like `envOk`, but the async transport answers with HTTP status 500 and
a body: the exchange completes, so the call still counts as succeeded. -/
def envC9 : Env :=
  { envOk with anet := fun _ _ _ => .ok 500 [1, 2] }

/-- Like `envOk`, but the async transport raises on every call. -/
def envAexn : Env :=
  { envOk with anet := fun _ _ _ => .exn }

/-- One region whose credential pool is non-empty for the very first query
of a request and empty afterwards: detection succeeds, dispatch finds
nothing to act with. -/
def envDrained : Env :=
  { envOk with
    servers := [("ind", "u2")]
    get_tokens := fun k _ => if k = 0 then .ok ["tokA"] else .ok [] }

/-- No region ever has credentials. -/
def envEmpty : Env :=
  { envOk with get_tokens := fun _ _ => .ok [] }

/-- The credential pool raises on every query. -/
def envFault : Env :=
  { envOk with get_tokens := fun _ _ => .error "boom" }

/-! ## Helper lemmas -/

@[simp] theorem ebind_ok {α β : Type} (x : α) (f : α → Except Fault β) :
    (Except.ok x >>= f) = f x := rfl

@[simp] theorem ebind_error {α β : Type} (e : Fault) (f : α → Except Fault β) :
    ((Except.error e : Except Fault α) >>= f) = Except.error e := rfl

@[simp] theorem epure_def {α : Type} (x : α) :
    (pure x : Except Fault α) = Except.ok x := rfl

@[simp] theorem ethrow_def {α : Type} (e : Fault) :
    (throw e : Except Fault α) = Except.error e := rfl

theorem length_filter_isSome_map {α β : Type} (f : α → Option β) (l : List α) :
    ((l.map f).filter (fun r => r.isSome)).length =
      (l.filter (fun x => (f x).isSome)).length := by
  induction l with
  | nil => rfl
  | cons x xs ih =>
    cases hfx : (f x).isSome <;>
      simp [List.filter_cons, hfx, ih]

/-! ## Claims -/

/-- C6: an absent, empty, or non-digit identifier is rejected with the
invalid-input result (HTTP 400) and no network call is recorded. -/
theorem invalid_uid_rejected :
    (∀ env : Env, like_player env none = (.invalidUid, []) ∧
        httpStatus (like_player env none).1 = 400)
    ∧ (∀ (env : Env) (u : String),
        u.data = [] ∨ (∃ c, c ∈ u.data ∧ c.isDigit = false) →
        like_player env (some u) = (.invalidUid, []) ∧
        httpStatus (like_player env (some u)).1 = 400) := by
  constructor
  · intro env
    exact ⟨rfl, rfl⟩
  · intro env u h
    have hpy : pyIsdigit u = false := by
      rcases h with h | ⟨c, hc, hd⟩
      · simp [pyIsdigit, h]
      · cases hall : u.data.all Char.isDigit with
        | false => simp [pyIsdigit, hall]
        | true => exact absurd (List.all_eq_true.mp hall c hc) (by simp [hd])
    have hb : like_player env (some u) = (.invalidUid, []) := by
      simp [like_player, like_player_body, hpy]
    exact ⟨hb, by rw [hb]; rfl⟩

/-- C6 witness. -/
theorem invalid_uid_rejected_witness :
    like_player envOk (some "12a") = (.invalidUid, []) ∧
    httpStatus (like_player envOk (some "12a")).1 = 400 :=
  invalid_uid_rejected.2 envOk "12a" (Or.inr ⟨'a', by decide, by decide⟩)

/-- C7: every run of the `/like` route yields a structured response: either
the body of the `try` block succeeded and its response is returned as is,
or the fault it raised is caught and mapped to the generic internal-failure
response with HTTP status 500. -/
theorem orchestrator_catches_faults (env : Env) (uidArg : Option String) :
    (∃ e, like_player_body env uidArg = .error e ∧
        like_player env uidArg = (.internalError e, []) ∧
        httpStatus (like_player env uidArg).1 = 500)
    ∨ (∃ r tr, like_player_body env uidArg = .ok (r, tr) ∧
        like_player env uidArg = (r, tr)) := by
  cases h : like_player_body env uidArg with
  | error e =>
    exact Or.inl ⟨e, rfl, by simp [like_player, h], by simp [like_player, h, httpStatus]⟩
  | ok r =>
    obtain ⟨r, tr⟩ := r
    exact Or.inr ⟨r, tr, rfl, by simp [like_player, h]⟩

/-- C2: a dispatch round never reports more successes than attempts, its
attempt count is exactly the number of credentials the pool returned for
the region at dispatch time, and an empty credential list yields the zero
outcome with no network call. -/
theorem send_likes_outcome_bounds :
    (∀ (env : Env) (uid region : String) (k : Nat) (res : SendResult)
        (tr : List NetCall) (k' : Nat),
        send_likes env uid region k = .ok (res, tr, k') →
        res.added ≤ res.sent ∧
        ∀ tokens, env.get_tokens k region = .ok tokens → res.sent = tokens.length)
    ∧ (∀ (env : Env) (uid region : String) (k : Nat),
        env.get_tokens k region = .ok [] →
        send_likes env uid region k = .ok (⟨0, 0⟩, [], k + 1)) := by
  constructor
  · intro env uid region k res tr k' h
    rw [send_likes] at h
    cases hg : env.get_tokens k region with
    | error e => rw [hg] at h; simp at h
    | ok tokens =>
      rw [hg] at h
      cases tokens with
      | nil =>
        simp at h
        obtain ⟨h1, _, _⟩ := h
        refine ⟨?_, ?_⟩
        · rw [← h1]
        · intro toks htoks
          injection htoks with htoks
          rw [← h1, ← htoks]
          rfl
      | cons t ts =>
        cases hs : env.servers.lookup region with
        | none => simp [serverFor, hs] at h
        | some srvUrl =>
          cases hpb : env.create_protobuf uid region with
          | error e => simp [serverFor, hs, hpb] at h
          | ok pb =>
            cases hea : env.encrypt_aes pb with
            | error e => simp [serverFor, hs, hpb, hea] at h
            | ok enc =>
              cases hfx : env.fromhex enc with
              | error e => simp [serverFor, hs, hpb, hea, hfx] at h
              | ok data =>
                simp only [serverFor, hs, hpb, hea, hfx, ebind_ok, epure_def,
                  Except.ok.injEq, Prod.mk.injEq] at h
                obtain ⟨h1, _, _⟩ := h
                refine ⟨?_, ?_⟩
                · rw [← h1]
                  exact List.length_filter_le _ _
                · intro toks htoks
                  injection htoks with htoks
                  rw [← h1, ← htoks]
                  simp
  · intro env uid region k hg
    rw [send_likes, hg]
    rfl

/-- Forward evaluation of the route's happy path from the results of its
three stages. -/
theorem like_player_body_run (env : Env) (uid region srvUrl : String) (info : PlayerInfo)
    (tr1 tr2 tr3 : List NetCall) (k1 k2 k3 : Nat) (res : SendResult) (a : Int)
    (hv : pyIsdigit uid = true)
    (hdet : detect_player_region env uid = .ok (some (region, info), tr1, k1))
    (hurl : env.servers.lookup region = some srvUrl)
    (hsend : send_likes env uid region k1 = .ok (res, tr2, k2))
    (hver : verify_after env uid region (srvUrl ++ "/GetPlayerPersonalShow")
        info.likes res.sent k2 = .ok (a, tr3, k3)) :
    like_player_body env (some uid) =
      .ok (.success info.playerNickname uid (a - info.likes) info.likes a region
            (if a > info.likes then 1 else 2), tr1 ++ tr2 ++ tr3) := by
  simp [like_player_body, hv, hdet, serverFor, hurl, hsend, hver]

/-- Fallback step of the verifier: with a non-zero dispatch count, a
non-empty pool and a verification read that produced no snapshot, the
before counter is kept. -/
theorem verify_after_fallback (env : Env) (uid region infoUrl : String) (b : Int)
    (sent k : Nat) (t0 : String) (ts : List String) (enc : String) (trv : List NetCall)
    (hsent : sent ≠ 0)
    (hg : env.get_tokens k region = .ok (t0 :: ts))
    (he : env.encode_uid uid = .ok enc)
    (hmk : make_request env enc infoUrl t0 = .ok (none, trv)) :
    verify_after env uid region infoUrl b sent k = .ok (b, trv, k + 1) := by
  simp [verify_after, hsent, hg, he, hmk]

/-- C4: when the dispatch outcome counts zero attempts the verifier issues
no network call and hands back the before counter unchanged, and the whole
operation then reports a delta of 0 with the "unchanged" status. -/
theorem verifier_skip_on_zero_attempts :
    (∀ (env : Env) (uid region infoUrl : String) (b : Int) (k : Nat),
        verify_after env uid region infoUrl b 0 k = .ok (b, [], k))
    ∧ (∀ (env : Env) (uid region srvUrl : String) (info : PlayerInfo)
        (tr1 tr2 : List NetCall) (k1 k2 : Nat) (res : SendResult),
        pyIsdigit uid = true →
        detect_player_region env uid = .ok (some (region, info), tr1, k1) →
        env.servers.lookup region = some srvUrl →
        send_likes env uid region k1 = .ok (res, tr2, k2) →
        res.sent = 0 →
        like_player env (some uid) =
          (.success info.playerNickname uid 0 info.likes info.likes region 2,
            tr1 ++ tr2)) := by
  constructor
  · intro env uid region infoUrl b k
    rfl
  · intro env uid region srvUrl info tr1 tr2 k1 k2 res hv hdet hurl hsend hzero
    have hver : verify_after env uid region (srvUrl ++ "/GetPlayerPersonalShow")
        info.likes res.sent k2 = .ok (info.likes, [], k2) := by
      rw [hzero]; rfl
    have hb := like_player_body_run env uid region srvUrl info tr1 tr2 [] k1 k2 k2
      res info.likes hv hdet hurl hsend hver
    simp [like_player, hb]

/-- C4 witness. -/
theorem verifier_skip_on_zero_attempts_witness :
    verify_after envOk "10" "ind" "u" 12 0 5 = .ok (12, [], 5) ∧
    like_player envDrained (some "10") =
      (.success "P" "10" 0 12 12 "ind" 2,
        [⟨true, "u2/GetPlayerPersonalShow", [7], "tokA"⟩]) :=
  ⟨verifier_skip_on_zero_attempts.1 envOk "10" "ind" "u" 12 5,
    verifier_skip_on_zero_attempts.2 envDrained "10" "ind" "u2" ⟨"P", 12⟩
      [⟨true, "u2/GetPlayerPersonalShow", [7], "tokA"⟩] [] 1 2 ⟨0, 0⟩
      (by decide) (by decide) (by decide) (by decide) (by decide)⟩

/-- C5: a verification read whose remote call raises or yields no decodable
snapshot makes `make_request` return no snapshot; the verifier then falls
back to the before counter, and the operation reports after = before,
delta 0, the "unchanged" status, and no internal failure. -/
theorem verifier_failure_fallback :
    (∀ (env : Env) (uid_enc url token : String) (d : List Nat),
        env.fromhex uid_enc = .ok d →
        env.get_headers token = .ok () →
        env.snet url d token = .exn →
        make_request env uid_enc url token = .ok (none, [⟨false, url, d, token⟩]))
    ∧ (∀ (env : Env) (uid_enc url token : String) (d body : List Nat),
        env.fromhex uid_enc = .ok d →
        env.get_headers token = .ok () →
        env.snet url d token = .ok 200 body →
        env.decode_info body = .ok none →
        make_request env uid_enc url token = .ok (none, [⟨false, url, d, token⟩]))
    ∧ (∀ (env : Env) (uid region srvUrl : String) (info : PlayerInfo)
        (tr1 tr2 : List NetCall) (k1 k2 : Nat) (res : SendResult)
        (t0 : String) (ts : List String) (enc : String) (trv : List NetCall),
        pyIsdigit uid = true →
        detect_player_region env uid = .ok (some (region, info), tr1, k1) →
        env.servers.lookup region = some srvUrl →
        send_likes env uid region k1 = .ok (res, tr2, k2) →
        res.sent ≠ 0 →
        env.get_tokens k2 region = .ok (t0 :: ts) →
        env.encode_uid uid = .ok enc →
        make_request env enc (srvUrl ++ "/GetPlayerPersonalShow") t0 = .ok (none, trv) →
        like_player env (some uid) =
          (.success info.playerNickname uid 0 info.likes info.likes region 2,
            tr1 ++ tr2 ++ trv)) := by
  refine ⟨?_, ?_, ?_⟩
  · intro env uid_enc url token d hfx hh hs
    simp [make_request, hfx, hh, hs]
  · intro env uid_enc url token d body hfx hh hs hd
    simp [make_request, hfx, hh, hs, hd]
  · intro env uid region srvUrl info tr1 tr2 k1 k2 res t0 ts enc trv
      hv hdet hurl hsend hnz hg he hmk
    have hver := verify_after_fallback env uid region
      (srvUrl ++ "/GetPlayerPersonalShow") info.likes res.sent k2 t0 ts enc trv
      hnz hg he hmk
    have hb := like_player_body_run env uid region srvUrl info tr1 tr2 trv k1 k2 (k2 + 1)
      res info.likes hv hdet hurl hsend hver
    simp [like_player, hb]

/-- C5 witness. -/
theorem verifier_failure_fallback_witness :
    make_request envVfail "10" "u2/GetPlayerPersonalShow" "tokA" =
      .ok (none, [⟨false, "u2/GetPlayerPersonalShow", [7], "tokA"⟩]) ∧
    like_player envVfail (some "10") =
      (.success "P" "10" 0 12 12 "ind" 2,
        [⟨true, "u2/GetPlayerPersonalShow", [7], "tokA"⟩] ++
          [⟨true, "u2/LikeProfile", [7], "tokA"⟩, ⟨true, "u2/LikeProfile", [7], "tokB"⟩] ++
          [⟨false, "u2/GetPlayerPersonalShow", [7], "tokA"⟩]) :=
  ⟨verifier_failure_fallback.1 envVfail "10" "u2/GetPlayerPersonalShow" "tokA" [7]
      (by decide) (by decide) (by decide),
    verifier_failure_fallback.2.2 envVfail "10" "ind" "u2" ⟨"P", 12⟩
      [⟨true, "u2/GetPlayerPersonalShow", [7], "tokA"⟩]
      [⟨true, "u2/LikeProfile", [7], "tokA"⟩, ⟨true, "u2/LikeProfile", [7], "tokB"⟩]
      2 3 ⟨2, 2⟩ "tokA" ["tokB"] "10"
      [⟨false, "u2/GetPlayerPersonalShow", [7], "tokA"⟩]
      (by decide) (by decide) (by decide) (by decide) (by decide) (by decide)
      (by decide) (by decide)⟩

/-- C9: a fan-out call counts as succeeded exactly when the HTTP exchange
completed and a body was read, whatever the transport status; only a raised
exception yields a failed (None) call, and `send_likes` counts successes by
that criterion. -/
theorem success_counting_ignores_status :
    (∀ (env : Env) (url : String) (data : List Nat) (token : String)
        (status : Nat) (body : List Nat),
        env.get_headers token = .ok () →
        env.anet url data token = .ok status body →
        async_post_request env url data token = (some body, [⟨true, url, data, token⟩]))
    ∧ (∀ (env : Env) (url : String) (data : List Nat) (token : String),
        env.anet url data token = .exn →
        (async_post_request env url data token).1 = none)
    ∧ (∀ (env : Env) (uid region : String) (k : Nat) (t0 : String) (ts : List String)
        (srvUrl pb enc : String) (data : List Nat) (res : SendResult)
        (tr : List NetCall) (k' : Nat),
        env.get_tokens k region = .ok (t0 :: ts) →
        env.servers.lookup region = some srvUrl →
        env.create_protobuf uid region = .ok pb →
        env.encrypt_aes pb = .ok enc →
        env.fromhex enc = .ok data →
        send_likes env uid region k = .ok (res, tr, k') →
        res.added = ((t0 :: ts).filter
          (fun t => ((async_post_request env (srvUrl ++ "/LikeProfile") data t).1).isSome)).length) := by
  refine ⟨?_, ?_, ?_⟩
  · intro env url data token status body hh ha
    simp [async_post_request, hh, ha]
  · intro env url data token ha
    cases hh : env.get_headers token with
    | error e => simp [async_post_request, hh]
    | ok u => simp [async_post_request, hh, ha]
  · intro env uid region k t0 ts srvUrl pb enc data res tr k'
      hg hs hpb hea hfx h
    rw [send_likes] at h
    rw [hg] at h
    simp only [serverFor, hs, hpb, hea, hfx, ebind_ok, epure_def,
      Except.ok.injEq, Prod.mk.injEq] at h
    obtain ⟨h1, _, _⟩ := h
    rw [← h1]
    exact length_filter_isSome_map _ _

/-- C9 witness. -/
theorem success_counting_ignores_status_witness :
    async_post_request envC9 "u" [7] "t" = (some [1, 2], [⟨true, "u", [7], "t"⟩])
    ∧ (async_post_request envAexn "u" [7] "t").1 = none
    ∧ (⟨2, 2⟩ : SendResult).added = ((["tokA", "tokB"] : List String).filter
        (fun t => ((async_post_request envC9 "u2/LikeProfile" [7] t).1).isSome)).length :=
  ⟨success_counting_ignores_status.1 envC9 "u" [7] "t" 500 [1, 2] (by decide) (by decide),
    success_counting_ignores_status.2.1 envAexn "u" [7] "t" (by decide),
    success_counting_ignores_status.2.2 envC9 "10" "ind" 2 "tokA" ["tokB"] "u2" "pb" "pb"
      [7] ⟨2, 2⟩
      [⟨true, "u2/LikeProfile", [7], "tokA"⟩, ⟨true, "u2/LikeProfile", [7], "tokB"⟩] 3
      (by decide) (by decide) (by decide) (by decide) (by decide) (by decide)⟩

/-- C2 witness. -/
theorem send_likes_outcome_bounds_witness :
    ((⟨2, 2⟩ : SendResult).added ≤ (⟨2, 2⟩ : SendResult).sent ∧
      ∀ tokens, envOk.get_tokens 2 "ind" = .ok tokens →
        (⟨2, 2⟩ : SendResult).sent = tokens.length)
    ∧ send_likes envOk "10" "b" 0 = .ok (⟨0, 0⟩, [], 1) :=
  ⟨send_likes_outcome_bounds.1 envOk "10" "ind" 2 ⟨2, 2⟩
      [⟨true, "u2/LikeProfile", [7], "tokA"⟩, ⟨true, "u2/LikeProfile", [7], "tokB"⟩] 3
      (by decide),
    send_likes_outcome_bounds.2 envOk "10" "b" 0 (by decide)⟩

/-- If no listed region ever has credentials, the detection loop makes no
network call and ends in the no-match outcome after one pool query per
region. -/
theorem detect_all_empty (env : Env) (uid : String) :
    ∀ (servers : List (String × String)),
      (∀ (k' : Nat) (p : String × String), p ∈ servers →
          env.get_tokens k' p.1 = .ok []) →
      ∀ k, detectLoop env uid servers k = .ok (none, [], k + servers.length) := by
  intro servers
  induction servers with
  | nil => intro _ k; simp [detectLoop]
  | cons p rest ih =>
    intro h k
    have hp : regionProbe env uid p k = .ok (none, [], k + 1) := by
      simp [regionProbe, h k p (List.mem_cons_self p rest)]
    have hr := ih (fun k' q hq => h k' q (List.mem_cons_of_mem p hq)) (k + 1)
    simp [detectLoop, hp, hr]
    omega

/-- If every listed region's probe, at any time, ends without a match, the
detection loop ends in the no-match outcome. -/
theorem detect_no_match (env : Env) (uid : String) :
    ∀ (servers : List (String × String)),
      (∀ (k' : Nat) (p : String × String), p ∈ servers →
          ∃ tr, regionProbe env uid p k' = .ok (none, tr, k' + 1)) →
      ∀ k, ∃ tr, detectLoop env uid servers k = .ok (none, tr, k + servers.length) := by
  intro servers
  induction servers with
  | nil => intro _ k; exact ⟨[], by simp [detectLoop]⟩
  | cons p rest ih =>
    intro h k
    obtain ⟨tr0, hp0⟩ := h k p (List.mem_cons_self p rest)
    obtain ⟨trR, hR⟩ := ih (fun k' q hq => h k' q (List.mem_cons_of_mem p hq)) (k + 1)
    refine ⟨tr0 ++ trR, ?_⟩
    simp [detectLoop, hp0, hR]
    omega

/-- C1: the region locator (a) ends in the no-match outcome on an empty
region list, (b) skips a region with an empty credential list without any
network call, consuming one pool query, (c) stops at the first region whose
single lookup call returns a body that decodes to a profile with a
non-empty display name, returning that region with its decoded snapshot,
and (d) ends in the no-match outcome after exhausting all regions without a
match. -/
theorem detect_region_locator_correct :
    (∀ (env : Env) (uid : String) (k : Nat),
        detectLoop env uid [] k = .ok (none, [], k))
    ∧ (∀ (env : Env) (uid : String) (p : String × String)
        (rest : List (String × String)) (k : Nat),
        env.get_tokens k p.1 = .ok [] →
        regionProbe env uid p k = .ok (none, [], k + 1) ∧
        detectLoop env uid (p :: rest) k = detectLoop env uid rest (k + 1))
    ∧ (∀ (env : Env) (uid : String) (p : String × String)
        (rest : List (String × String)) (k : Nat) (t0 : String) (ts : List String)
        (hx : String) (data : List Nat) (status : Nat) (body : List Nat)
        (info : PlayerInfo),
        env.get_tokens k p.1 = .ok (t0 :: ts) →
        env.encode_uid uid = .ok hx →
        env.fromhex hx = .ok data →
        env.get_headers t0 = .ok () →
        env.anet (p.2 ++ "/GetPlayerPersonalShow") data t0 = .ok status body →
        body ≠ [] →
        env.decode_info body = .ok (some info) →
        info.playerNickname ≠ "" →
        detectLoop env uid (p :: rest) k =
          .ok (some (p.1, info),
            [⟨true, p.2 ++ "/GetPlayerPersonalShow", data, t0⟩], k + 1))
    ∧ (∀ (env : Env) (uid : String) (servers : List (String × String)) (k : Nat),
        (∀ (k' : Nat) (p : String × String), p ∈ servers →
            ∃ tr, regionProbe env uid p k' = .ok (none, tr, k' + 1)) →
        ∃ tr, detectLoop env uid servers k = .ok (none, tr, k + servers.length)) := by
  refine ⟨?_, ?_, ?_, ?_⟩
  · intro env uid k
    rfl
  · intro env uid p rest k hg
    have hprobe : regionProbe env uid p k = .ok (none, [], k + 1) := by
      simp [regionProbe, hg]
    refine ⟨hprobe, ?_⟩
    cases hrec : detectLoop env uid rest (k + 1) with
    | error e => simp [detectLoop, hprobe, hrec]
    | ok z =>
      obtain ⟨res2, tr2, k2⟩ := z
      simp [detectLoop, hprobe, hrec]
  · intro env uid p rest k t0 ts hx data status body info hg he hf hh ha hne hd hn
    have hasync : async_post_request env (p.2 ++ "/GetPlayerPersonalShow") data t0 =
        (some body, [⟨true, p.2 ++ "/GetPlayerPersonalShow", data, t0⟩]) := by
      simp [async_post_request, hh, ha]
    have hprobe : regionProbe env uid p k =
        .ok (some info, [⟨true, p.2 ++ "/GetPlayerPersonalShow", data, t0⟩], k + 1) := by
      cases body with
      | nil => exact absurd rfl hne
      | cons x xs => simp [regionProbe, hg, he, hf, hasync, hd, hn]
    simp [detectLoop, hprobe]
  · intro env uid servers k h
    exact detect_no_match env uid servers h k

/-- C1 witness. -/
theorem detect_region_locator_correct_witness :
    (regionProbe envOk "10" ("b", "u1") 0 = .ok (none, [], 1) ∧
      detectLoop envOk "10" [("b", "u1"), ("ind", "u2")] 0 =
        detectLoop envOk "10" [("ind", "u2")] 1)
    ∧ detectLoop envOk "10" [("ind", "u2")] 1 =
        .ok (some ("ind", ⟨"P", 12⟩),
          [⟨true, "u2/GetPlayerPersonalShow", [7], "tokA"⟩], 2)
    ∧ (∃ tr, detectLoop envEmpty "7" [("b", "u1"), ("ind", "u2")] 0 =
        .ok (none, tr, 0 + 2)) :=
  ⟨detect_region_locator_correct.2.1 envOk "10" ("b", "u1") [("ind", "u2")] 0 (by decide),
    detect_region_locator_correct.2.2.1 envOk "10" ("ind", "u2") [] 1 "tokA" ["tokB"]
      "10" [7] 200 [1, 2] ⟨"P", 12⟩ (by decide) (by decide) (by decide) (by decide)
      (by decide) (by decide) (by decide) (by decide),
    detect_region_locator_correct.2.2.2 envEmpty "7" [("b", "u1"), ("ind", "u2")] 0
      (fun k' p hp => ⟨[], rfl⟩)⟩

/-- C8: a valid identifier with no credentialed region anywhere yields the
"player not found" outcome (HTTP 404) with no network call made. -/
theorem no_credentials_not_found (env : Env) (uid : String)
    (hv : pyIsdigit uid = true)
    (hempty : ∀ (k : Nat) (p : String × String), p ∈ env.servers →
        env.get_tokens k p.1 = .ok []) :
    like_player env (some uid) = (.notFound, []) ∧
    httpStatus (like_player env (some uid)).1 = 404 := by
  have hdet := detect_all_empty env uid env.servers hempty 0
  have hb : like_player_body env (some uid) = .ok (.notFound, []) := by
    simp [like_player_body, hv, detect_player_region, hdet]
  exact ⟨by simp [like_player, hb], by simp [like_player, hb, httpStatus]⟩

/-- C8 witness. -/
theorem no_credentials_not_found_witness :
    like_player envEmpty (some "123") = (.notFound, []) ∧
    httpStatus (like_player envEmpty (some "123")).1 = 404 :=
  no_credentials_not_found envEmpty "123" (by decide) (fun k p hp => rfl)

/-- Inversion: every success response the route can produce carries
`likes_added = likes_after - likes_before` and
`status = 1 if likes_after > likes_before else 2`. -/
theorem response_delta_inv (env : Env) (uidArg : Option String) (p u : String)
    (d b a : Int) (srv : String) (st : Nat) (tr : List NetCall)
    (h : like_player env uidArg = (.success p u d b a srv st, tr)) :
    d = a - b ∧ st = (if a > b then 1 else 2) := by
  cases hbody : like_player_body env uidArg with
  | error e => simp [like_player, hbody] at h
  | ok r =>
    simp only [like_player, hbody] at h
    subst h
    cases uidArg with
    | none => simp [like_player_body] at hbody
    | some uid =>
      cases hv : pyIsdigit uid with
      | false => simp [like_player_body, hv] at hbody
      | true =>
        simp only [like_player_body, hv, Bool.not_true, Bool.false_eq_true,
          if_false] at hbody
        cases hdet : detect_player_region env uid with
        | error e => rw [hdet] at hbody; simp at hbody
        | ok x =>
          obtain ⟨found, tr1, k1⟩ := x
          rw [hdet] at hbody
          cases found with
          | none => simp at hbody
          | some rp =>
            obtain ⟨region, info⟩ := rp
            cases hs : env.servers.lookup region with
            | none => simp [serverFor, hs] at hbody
            | some srvUrl =>
              simp only [serverFor, hs, ebind_ok, epure_def] at hbody
              cases hsend : send_likes env uid region k1 with
              | error e => rw [hsend] at hbody; simp at hbody
              | ok y =>
                obtain ⟨resS, tr2, k2⟩ := y
                simp only [hsend, ebind_ok] at hbody
                cases hver : verify_after env uid region
                    (srvUrl ++ "/GetPlayerPersonalShow") info.likes resS.sent k2 with
                | error e => rw [hver] at hbody; simp at hbody
                | ok z =>
                  obtain ⟨afterL, tr3, k3⟩ := z
                  rw [hver] at hbody
                  simp only [ebind_ok, epure_def, Except.ok.injEq, Prod.mk.injEq,
                    Response.success.injEq] at hbody
                  obtain ⟨⟨hp, hu, hd, hbb, ha, hsrv, hst⟩, htr⟩ := hbody
                  subst hd
                  subst hbb
                  subst ha
                  subst hst
                  exact ⟨rfl, rfl⟩

/-- C3: on every completed `/like` operation that found a player, the
reported delta is the after counter minus the before counter, and the
status code is 1 (matched/increase) exactly when the delta is positive,
otherwise 2 (unchanged). -/
theorem like_delta_and_status (env : Env) (uidArg : Option String) (p u : String)
    (d b a : Int) (srv : String) (st : Nat) (tr : List NetCall)
    (h : like_player env uidArg = (.success p u d b a srv st, tr)) :
    d = a - b ∧ st = (if 0 < d then 1 else 2) := by
  obtain ⟨hd, hst⟩ := response_delta_inv env uidArg p u d b a srv st tr h
  subst hd
  refine ⟨rfl, ?_⟩
  rw [hst]
  exact if_congr Int.sub_pos.symm rfl rfl

/-- C3 witness. -/
theorem like_delta_and_status_witness :
    (1 : Int) = 13 - 12 ∧ (1 : Nat) = (if (0 : Int) < 1 then 1 else 2) :=
  like_delta_and_status envOk (some "10") "P" "10" 1 12 13 "ind" 1
    [⟨true, "u2/GetPlayerPersonalShow", [7], "tokA"⟩,
      ⟨true, "u2/LikeProfile", [7], "tokA"⟩,
      ⟨true, "u2/LikeProfile", [7], "tokB"⟩,
      ⟨false, "u2/GetPlayerPersonalShow", [7], "tokA"⟩]
    (by decide)

/-- C10: the reported delta can be negative (a verification read below the
before counter is reported as is), and the "unchanged" status 2 is what the
route returns whenever after <= before. -/
theorem negative_delta_unchanged_status :
    (∃ tr, like_player envNeg (some "10") =
        (.success "P" "10" (-1) 12 11 "ind" 2, tr))
    ∧ (∀ (env : Env) (uidArg : Option String) (p u : String) (d b a : Int)
        (srv : String) (st : Nat) (tr : List NetCall),
        like_player env uidArg = (.success p u d b a srv st, tr) →
        a ≤ b → st = 2 ∧ d = a - b) := by
  constructor
  · exact ⟨[⟨true, "u2/GetPlayerPersonalShow", [7], "tokA"⟩,
      ⟨true, "u2/LikeProfile", [7], "tokA"⟩,
      ⟨true, "u2/LikeProfile", [7], "tokB"⟩,
      ⟨false, "u2/GetPlayerPersonalShow", [7], "tokA"⟩], by decide⟩
  · intro env uidArg p u d b a srv st tr h hle
    obtain ⟨hd, hst⟩ := response_delta_inv env uidArg p u d b a srv st tr h
    exact ⟨by rw [hst]; exact if_neg (not_lt.mpr hle), hd⟩

/-- C10 witness. -/
theorem negative_delta_unchanged_status_witness :
    (2 : Nat) = 2 ∧ (-1 : Int) = 11 - 12 :=
  negative_delta_unchanged_status.2 envNeg (some "10") "P" "10" (-1) 12 11 "ind" 2
    [⟨true, "u2/GetPlayerPersonalShow", [7], "tokA"⟩,
      ⟨true, "u2/LikeProfile", [7], "tokA"⟩,
      ⟨true, "u2/LikeProfile", [7], "tokB"⟩,
      ⟨false, "u2/GetPlayerPersonalShow", [7], "tokA"⟩]
    (by decide) (by decide)

end FreeLike
